import Mathlib

/-!
Verification of the corona-network-standard entity-to-RDF mapping engine.

The Python source (src/corona_network_standard/models.py and the two
main.py modules) serializes typed network entities into an rdflib Graph,
which is a *set* of (subject, predicate, object) triples.  We embed the
triple store as a duplicate-free list (`Graph.add` inserts only when the
triple is absent, which is exactly rdflib's set semantics), embed each
pydantic model as a structure and each `to_rdf` method as a function
`Graph → Graph`, and prove properties of the emission engine.
-/

/-- An rdflib literal value: either a Python `str` or a Python `int`. -/
inductive LitValue
  | s (v : String)
  | i (v : Int)
deriving DecidableEq, Repr

/-- An rdflib `Literal`: a value plus an optional datatype URI.
`Literal("x")` carries no datatype; `Literal(5)` is auto-typed
`xsd:integer` by rdflib; an explicit `datatype=` keyword sets it. -/
structure RdfLit where
  value : LitValue
  datatype : Option String
deriving DecidableEq, Repr

/-- An RDF object position: a URI reference or a literal. -/
inductive RdfObj
  | res (u : String)
  | lit (l : RdfLit)
deriving DecidableEq, Repr

/-- One RDF triple. -/
structure Triple where
  subj : String
  pred : String
  obj : RdfObj
deriving DecidableEq, Repr

/-- `NETWORK[name]` from models.py: the ontology namespace. -/
def NETWORK (localName : String) : String :=
  "http://www.example.org/network-ontology#" ++ localName

/-- `EX[name]` from models.py: the instance namespace. -/
def EX (localName : String) : String :=
  "http://www.example.org/network-instance#" ++ localName

/-- `RDF.type`. -/
def rdfType : String := "http://www.w3.org/1999/02/22-rdf-syntax-ns#type"

/-- `RDFS.label`. -/
def rdfsLabel : String := "http://www.w3.org/2000/01/rdf-schema#label"

/-- `RDFS.comment`. -/
def rdfsComment : String := "http://www.w3.org/2000/01/rdf-schema#comment"

/-- `XSD.integer`. -/
def xsdInteger : String := "http://www.w3.org/2001/XMLSchema#integer"

/-- `XSD.string`. -/
def xsdString : String := "http://www.w3.org/2001/XMLSchema#string"

/-- `Literal(v)` applied to a Python `str`: a plain literal, no datatype. -/
def pyLit (v : String) : RdfLit := ⟨.s v, none⟩

/-- `Literal(v, datatype=dt)` applied to a Python `str`. -/
def pyLitTyped (v : String) (dt : String) : RdfLit := ⟨.s v, some dt⟩

/-- `Literal(v)` applied to a Python `int`: rdflib auto-types it `xsd:integer`. -/
def pyLitInt (v : Int) : RdfLit := ⟨.i v, some xsdInteger⟩

/-- `Literal(v, datatype=dt)` applied to a Python `int`. -/
def pyLitIntTyped (v : Int) (dt : String) : RdfLit := ⟨.i v, some dt⟩

/-- An rdflib `Graph` is a set of triples; we keep it as a duplicate-free
list, with insertion a no-op on triples already present. -/
abbrev Graph := List Triple

/-- The fresh graph `Graph()`. -/
def Graph.empty : Graph := []

/-- `g.add(t)`: set insertion — a no-op when the triple is present. -/
def Graph.add (g : Graph) (t : Triple) : Graph :=
  if t ∈ g then g else g ++ [t]

/-- Add a list of triples in order. -/
def Graph.addList (g : Graph) (ts : List Triple) : Graph :=
  ts.foldl Graph.add g

theorem Graph.addList_nil (g : Graph) : g.addList [] = g := rfl

theorem Graph.addList_cons (g : Graph) (t : Triple) (ts : List Triple) :
    g.addList (t :: ts) = (g.add t).addList ts := rfl

theorem Graph.addList_singleton (g : Graph) (t : Triple) :
    g.addList [t] = g.add t := rfl

theorem Graph.addList_append (g : Graph) (ts₁ ts₂ : List Triple) :
    g.addList (ts₁ ++ ts₂) = (g.addList ts₁).addList ts₂ := by
  simp [Graph.addList, List.foldl_append]

/-- The source's explicit `if triple not in g: g.add(triple)` guard is
extensionally the same as `g.add`, which already checks membership. -/
theorem Graph.add_mem_absorb (g : Graph) (t : Triple) :
    (if t ∈ g then g else g.add t) = g.add t := by
  by_cases h : t ∈ g <;> simp [Graph.add, h]

theorem Graph.mem_add {g : Graph} {t u : Triple} :
    u ∈ g.add t ↔ u ∈ g ∨ u = t := by
  unfold Graph.add
  split
  · next h =>
    constructor
    · exact Or.inl
    · rintro (hu | rfl)
      · exact hu
      · exact h
  · simp [List.mem_append]

theorem Graph.mem_addList {g : Graph} {ts : List Triple} {u : Triple} :
    u ∈ g.addList ts ↔ u ∈ g ∨ u ∈ ts := by
  induction ts generalizing g with
  | nil => simp [Graph.addList]
  | cons t ts ih =>
    simp [Graph.addList_cons, ih, Graph.mem_add, List.mem_cons, or_assoc]

theorem Graph.add_nodup {g : Graph} {t : Triple} (h : g.Nodup) :
    (g.add t).Nodup := by
  unfold Graph.add
  split
  · exact h
  · next hn => simp [List.nodup_append, h, hn]

theorem Graph.addList_nodup {g : Graph} {ts : List Triple} (h : g.Nodup) :
    (g.addList ts).Nodup := by
  induction ts generalizing g with
  | nil => exact h
  | cons t ts ih => exact ih (Graph.add_nodup h)

theorem Graph.foldl_add_map {α : Type} (g : Graph) (xs : List α) (f : α → Triple) :
    xs.foldl (fun g x => g.add (f x)) g = g.addList (xs.map f) := by
  rw [Graph.addList, List.foldl_map]

theorem Graph.foldl_add2 {α : Type} (g : Graph) (xs : List α) (p q : α → Triple) :
    xs.foldl (fun g x => (g.add (p x)).add (q x)) g
      = g.addList (xs.flatMap (fun x => [p x, q x])) := by
  induction xs generalizing g with
  | nil => rfl
  | cons a l ih =>
    simp only [List.foldl_cons, List.flatMap_cons, ih, Graph.addList_append,
      Graph.addList_cons, Graph.addList_nil]

theorem Graph.foldl_addList_add {α : Type} (g : Graph) (xs : List α)
    (F : α → List Triple) (q : α → Triple) :
    xs.foldl (fun g x => (g.addList (F x)).add (q x)) g
      = g.addList (xs.flatMap (fun x => F x ++ [q x])) := by
  induction xs generalizing g with
  | nil => rfl
  | cons a l ih =>
    simp only [List.foldl_cons, List.flatMap_cons, ih, Graph.addList_append,
      Graph.addList_singleton]

/-! ## The pydantic entity models (models.py) -/

/-- `class BaseEntity(BaseModel)`: id plus optional description. -/
structure BaseEntity where
  id : String
  description : Option String := none
deriving DecidableEq, Repr

/-- The `hw_status` literal type `Literal["ON", "OFF", "ABN"]`. -/
inductive HWStatus
  | ON
  | OFF
  | ABN
deriving DecidableEq, Repr

/-- The string a hardware status serializes as. -/
def HWStatus.toStr : HWStatus → String
  | .ON => "ON"
  | .OFF => "OFF"
  | .ABN => "ABN"

/-- `class HWNetEntity(BaseEntity)`: adds `hw_status` (default `"ON"`). -/
structure HWNetEntity extends BaseEntity where
  hw_status : HWStatus := .ON
deriving DecidableEq, Repr

/-- `class LogicalEntity(BaseEntity)`: marker subclass, no extra fields. -/
structure LogicalEntity extends BaseEntity
deriving DecidableEq, Repr

/-- `class VLAN(LogicalEntity)`. -/
structure VLAN extends LogicalEntity where
  vlan_id : Int
  name : Option String := none
  has_subnet_ids : List String := []
deriving DecidableEq, Repr

/-- `class Subnet(LogicalEntity)`. -/
structure Subnet extends LogicalEntity where
  cidr : String
deriving DecidableEq, Repr

/-- `class AddressAssignment(BaseEntity)`. -/
structure AddressAssignment extends BaseEntity where
  ip_value : String
  on_subnet_id : String
deriving DecidableEq, Repr

/-- The `port_mode` literal type `Literal["ACCESS", "TRUNK", "UNCONFIGURED"]`. -/
inductive PortMode
  | ACCESS
  | TRUNK
  | UNCONFIGURED
deriving DecidableEq, Repr

/-- The string a port mode serializes as. -/
def PortMode.toStr : PortMode → String
  | .ACCESS => "ACCESS"
  | .TRUNK => "TRUNK"
  | .UNCONFIGURED => "UNCONFIGURED"

/-- `class Iface(HWNetEntity)`. -/
structure Iface extends HWNetEntity where
  has_address_assignments : List AddressAssignment := []
  connected_to_link_id : Option String := none
  belongs_to_node_id : Option String := none
  port_mode : PortMode := .UNCONFIGURED
  access_vlan_id : Option Int := none
  allowed_vlan_ids : List Int := []
deriving DecidableEq, Repr

/-- `class Link(HWNetEntity)`. -/
structure Link extends HWNetEntity where
  bandwidth : Option Int := none
  technology : Option String := none
  cost : Option Int := none
  interface_ids : List String := []
deriving DecidableEq, Repr

/-- `class Node(HWNetEntity)`. -/
structure Node extends HWNetEntity where
  has_iface_ids : List String := []
  has_neighbor_ids : List String := []
deriving DecidableEq, Repr

/-- `class Host(Node)`: no extra fields. -/
structure Host extends Node
deriving DecidableEq, Repr

/-- `class Router(Node)`: adds `routes_subnet_ids`. -/
structure Router extends Node where
  routes_subnet_ids : List String := []
deriving DecidableEq, Repr

/-- `class Switch(Node)`: no extra fields. -/
structure Switch extends Node
deriving DecidableEq, Repr

/-! ## Python conditional-emission idioms

models.py guards optional attribute triples two ways: `if self.field:`
(Python truthiness — skips `None` *and* the empty string) and
`if self.field is not None:` (skips only `None`).  The two helpers below
encode those idioms once, so every `to_rdf` translation can use them
line for line. -/

/-- `if self.field: g.add(f(field))` for an optional string field
(Python truthiness: `None` and `""` are both falsy). -/
def Graph.pyAddOptStr (g : Graph) (o : Option String) (f : String → Triple) : Graph :=
  match o with
  | some s => if s = "" then g else g.add (f s)
  | none => g

/-- `if self.field is not None: g.add(f(field))` for an optional field. -/
def Graph.pyAddOpt {α : Type} (g : Graph) (o : Option α) (f : α → Triple) : Graph :=
  match o with
  | some v => g.add (f v)
  | none => g

/-- The triples `Graph.pyAddOptStr` contributes, as a pure list. -/
def optStrTriples (o : Option String) (f : String → Triple) : List Triple :=
  match o with
  | some s => if s = "" then [] else [f s]
  | none => []

/-- The triples `Graph.pyAddOpt` contributes, as a pure list. -/
def optTriples {α : Type} (o : Option α) (f : α → Triple) : List Triple :=
  match o with
  | some v => [f v]
  | none => []

theorem Graph.pyAddOptStr_eq (g : Graph) (o : Option String) (f : String → Triple) :
    g.pyAddOptStr o f = g.addList (optStrTriples o f) := by
  cases o with
  | none => rfl
  | some s =>
    by_cases h : s = "" <;>
      simp [Graph.pyAddOptStr, optStrTriples, h, Graph.addList_singleton,
        Graph.addList_nil]

theorem Graph.pyAddOpt_eq {α : Type} (g : Graph) (o : Option α) (f : α → Triple) :
    g.pyAddOpt o f = g.addList (optTriples o f) := by
  cases o with
  | none => rfl
  | some v => rfl

/-! ## Identifier resolution (`to_uri`) -/

/-- `BaseEntity.to_uri`: `EX[self.id]`. -/
def BaseEntity.to_uri (e : BaseEntity) : String := EX e.id

/-- `self.cidr.replace('/', '_')`: replace every slash (a single
character) by an underscore. -/
def replaceSlash (s : String) : String :=
  String.mk (s.data.map (fun c => if c = '/' then '_' else c))

/-- `Subnet.to_uri`: `EX[f"Subnet_{safe_cidr_id}"]`, overriding the base
method — the nominal id field plays no part. -/
def Subnet.to_uri (s : Subnet) : String :=
  EX ("Subnet_" ++ replaceSlash s.cidr)

/-! ## Serialization (`to_rdf`), one function per models.py method.

Each `to_rdf` takes the graph and returns the updated graph; alongside
each one, `triples` gives the same emission as a pure list of triples,
and a `to_rdf_eq` lemma proves the method equals adding that list. -/

/-- `BaseEntity.to_rdf`. -/
def BaseEntity.to_rdf (e : BaseEntity) (g : Graph) : Graph :=
  let entity_uri := e.to_uri
  let g := g.add ⟨entity_uri, rdfType, .res (NETWORK "BaseEntity")⟩
  let g := g.add ⟨entity_uri, rdfsLabel, .lit (pyLit e.id)⟩
  g.pyAddOptStr e.description (fun d => ⟨entity_uri, rdfsComment, .lit (pyLit d)⟩)

/-- Pure triple list of `BaseEntity.to_rdf`. -/
def BaseEntity.triples (e : BaseEntity) : List Triple :=
  [⟨EX e.id, rdfType, .res (NETWORK "BaseEntity")⟩,
   ⟨EX e.id, rdfsLabel, .lit (pyLit e.id)⟩]
  ++ optStrTriples e.description (fun d => ⟨EX e.id, rdfsComment, .lit (pyLit d)⟩)

theorem baseEntity_to_rdf_eq (e : BaseEntity) (g : Graph) :
    e.to_rdf g = g.addList e.triples := by
  simp only [BaseEntity.to_rdf, BaseEntity.triples, BaseEntity.to_uri,
    Graph.pyAddOptStr_eq, Graph.addList_append, Graph.addList_cons,
    Graph.addList_nil]

/-- `HWNetEntity.to_rdf`: base properties plus the hardware status. -/
def HWNetEntity.to_rdf (e : HWNetEntity) (g : Graph) : Graph :=
  let entity_uri := EX e.id
  let g := g.add ⟨entity_uri, rdfType, .res (NETWORK "HWNetEntity")⟩
  let g := g.add ⟨entity_uri, rdfsLabel, .lit (pyLit e.id)⟩
  let g := g.pyAddOptStr e.description
    (fun d => ⟨entity_uri, rdfsComment, .lit (pyLit d)⟩)
  g.add ⟨entity_uri, NETWORK "HWStatus", .lit (pyLit e.hw_status.toStr)⟩

/-- Pure triple list of `HWNetEntity.to_rdf`. -/
def HWNetEntity.triples (e : HWNetEntity) : List Triple :=
  [⟨EX e.id, rdfType, .res (NETWORK "HWNetEntity")⟩,
   ⟨EX e.id, rdfsLabel, .lit (pyLit e.id)⟩]
  ++ optStrTriples e.description (fun d => ⟨EX e.id, rdfsComment, .lit (pyLit d)⟩)
  ++ [⟨EX e.id, NETWORK "HWStatus", .lit (pyLit e.hw_status.toStr)⟩]

theorem hwNetEntity_to_rdf_eq (e : HWNetEntity) (g : Graph) :
    e.to_rdf g = g.addList e.triples := by
  simp only [HWNetEntity.to_rdf, HWNetEntity.triples, Graph.pyAddOptStr_eq,
    Graph.addList_append, Graph.addList_cons, Graph.addList_nil,
    Graph.addList_singleton]

/-- `VLAN.to_rdf`: the subject is `self.to_uri()`, i.e. `EX[self.id]` —
the *nominal* id — and `vlanId` is an explicitly `xsd:integer`-typed
literal. -/
def VLAN.to_rdf (v : VLAN) (g : Graph) : Graph :=
  let vlan_instance_uri := EX v.id
  let g := g.add ⟨vlan_instance_uri, rdfType, .res (NETWORK "VLAN")⟩
  let g := g.add ⟨vlan_instance_uri, rdfsLabel, .lit (pyLit v.id)⟩
  let g := g.pyAddOptStr v.description
    (fun d => ⟨vlan_instance_uri, rdfsComment, .lit (pyLit d)⟩)
  let g := g.add ⟨vlan_instance_uri, NETWORK "vlanId",
    .lit (pyLitIntTyped v.vlan_id xsdInteger)⟩
  let g := g.pyAddOptStr v.name
    (fun nm => ⟨vlan_instance_uri, NETWORK "vlanName", .lit (pyLit nm)⟩)
  v.has_subnet_ids.foldl
    (fun g subnet_id =>
      g.add ⟨vlan_instance_uri, NETWORK "hasSubnet", .res (EX subnet_id)⟩) g

/-- Pure triple list of `VLAN.to_rdf`. -/
def VLAN.triples (v : VLAN) : List Triple :=
  [⟨EX v.id, rdfType, .res (NETWORK "VLAN")⟩,
   ⟨EX v.id, rdfsLabel, .lit (pyLit v.id)⟩]
  ++ optStrTriples v.description (fun d => ⟨EX v.id, rdfsComment, .lit (pyLit d)⟩)
  ++ [⟨EX v.id, NETWORK "vlanId", .lit (pyLitIntTyped v.vlan_id xsdInteger)⟩]
  ++ optStrTriples v.name (fun nm => ⟨EX v.id, NETWORK "vlanName", .lit (pyLit nm)⟩)
  ++ v.has_subnet_ids.map
      (fun subnet_id => ⟨EX v.id, NETWORK "hasSubnet", .res (EX subnet_id)⟩)

theorem vlan_to_rdf_eq (v : VLAN) (g : Graph) :
    v.to_rdf g = g.addList v.triples := by
  simp only [VLAN.to_rdf, VLAN.triples, Graph.pyAddOptStr_eq,
    Graph.foldl_add_map, Graph.addList_append, Graph.addList_cons,
    Graph.addList_nil, Graph.addList_singleton]

/-- `Subnet.to_rdf`: subject is the CIDR-derived URI; the label is built
from the CIDR, not the nominal id; `subnetCidr` is an
`xsd:string`-typed literal. -/
def Subnet.to_rdf (s : Subnet) (g : Graph) : Graph :=
  let subnet_uri := s.to_uri
  let g := g.add ⟨subnet_uri, rdfType, .res (NETWORK "Subnet")⟩
  let g := g.add ⟨subnet_uri, rdfsLabel, .lit (pyLit ("Subnet " ++ s.cidr))⟩
  let g := g.pyAddOptStr s.description
    (fun d => ⟨subnet_uri, rdfsComment, .lit (pyLit d)⟩)
  g.add ⟨subnet_uri, NETWORK "subnetCidr", .lit (pyLitTyped s.cidr xsdString)⟩

/-- Pure triple list of `Subnet.to_rdf`. -/
def Subnet.triples (s : Subnet) : List Triple :=
  [⟨s.to_uri, rdfType, .res (NETWORK "Subnet")⟩,
   ⟨s.to_uri, rdfsLabel, .lit (pyLit ("Subnet " ++ s.cidr))⟩]
  ++ optStrTriples s.description (fun d => ⟨s.to_uri, rdfsComment, .lit (pyLit d)⟩)
  ++ [⟨s.to_uri, NETWORK "subnetCidr", .lit (pyLitTyped s.cidr xsdString)⟩]

theorem subnet_to_rdf_eq (s : Subnet) (g : Graph) :
    s.to_rdf g = g.addList s.triples := by
  simp only [Subnet.to_rdf, Subnet.triples, Graph.pyAddOptStr_eq,
    Graph.addList_append, Graph.addList_cons, Graph.addList_nil,
    Graph.addList_singleton]

/-- `AddressAssignment.to_rdf`: `ipValue` is a *plain* (untyped) literal
— `Literal(self.ip_value)` with no datatype keyword. -/
def AddressAssignment.to_rdf (a : AddressAssignment) (g : Graph) : Graph :=
  let assignment_uri := EX a.id
  let g := g.add ⟨assignment_uri, rdfType, .res (NETWORK "AddressAssignment")⟩
  let g := g.add ⟨assignment_uri, rdfsLabel, .lit (pyLit a.id)⟩
  let g := g.pyAddOptStr a.description
    (fun d => ⟨assignment_uri, rdfsComment, .lit (pyLit d)⟩)
  let g := g.add ⟨assignment_uri, NETWORK "ipValue", .lit (pyLit a.ip_value)⟩
  g.add ⟨assignment_uri, NETWORK "onSubnet", .res (EX a.on_subnet_id)⟩

/-- Pure triple list of `AddressAssignment.to_rdf`. -/
def AddressAssignment.triples (a : AddressAssignment) : List Triple :=
  [⟨EX a.id, rdfType, .res (NETWORK "AddressAssignment")⟩,
   ⟨EX a.id, rdfsLabel, .lit (pyLit a.id)⟩]
  ++ optStrTriples a.description (fun d => ⟨EX a.id, rdfsComment, .lit (pyLit d)⟩)
  ++ [⟨EX a.id, NETWORK "ipValue", .lit (pyLit a.ip_value)⟩,
     ⟨EX a.id, NETWORK "onSubnet", .res (EX a.on_subnet_id)⟩]

theorem addressAssignment_to_rdf_eq (a : AddressAssignment) (g : Graph) :
    a.to_rdf g = g.addList a.triples := by
  simp only [AddressAssignment.to_rdf, AddressAssignment.triples,
    Graph.pyAddOptStr_eq, Graph.addList_append, Graph.addList_cons,
    Graph.addList_nil, Graph.addList_singleton]

/-- The `@model_validator(mode="after") check_vlan_mode_consistency` on
`Iface` (models.py): pydantic raises `ValueError` — modelled as
`Except.error` — exactly on the forbidden port-mode/VLAN combinations,
and otherwise returns the interface unchanged. -/
def Iface.check_vlan_mode_consistency (i : Iface) : Except String Iface :=
  match i.port_mode with
  | .ACCESS =>
    if i.allowed_vlan_ids ≠ [] then
      .error ("allowed_vlan_ids cannot be set when port_mode is ACCESS (Interface ID: "
        ++ i.id ++ ")")
    else .ok i
  | .TRUNK =>
    match i.access_vlan_id with
    | some _ =>
      .error ("access_vlan_id cannot be set when port_mode is TRUNK (Interface ID: "
        ++ i.id ++ ")")
    | none => .ok i
  | .UNCONFIGURED =>
    match i.access_vlan_id with
    | some _ =>
      .error ("access_vlan_id cannot be set when port_mode is UNCONFIGURED (Interface ID: "
        ++ i.id ++ ")")
    | none =>
      if i.allowed_vlan_ids ≠ [] then
        .error ("allowed_vlan_ids cannot be set when port_mode is UNCONFIGURED (Interface ID: "
          ++ i.id ++ ")")
      else .ok i

/-- `Iface.to_rdf`: serializes nested address assignments first, links to
the connected Link and owning Node (guarded by Python truthiness), and
emits `accessVlan` / `allowedVlan` references using the
`EX[f"VLAN{vlan_id}_obj"]` naming pattern. -/
def Iface.to_rdf (i : Iface) (g : Graph) : Graph :=
  let iface_uri := EX i.id
  let g := g.add ⟨iface_uri, rdfType, .res (NETWORK "Iface")⟩
  let g := g.add ⟨iface_uri, rdfsLabel, .lit (pyLit i.id)⟩
  let g := g.pyAddOptStr i.description
    (fun d => ⟨iface_uri, rdfsComment, .lit (pyLit d)⟩)
  let g := g.add ⟨iface_uri, NETWORK "HWStatus", .lit (pyLit i.hw_status.toStr)⟩
  let g := i.has_address_assignments.foldl
    (fun g assignment =>
      (assignment.to_rdf g).add
        ⟨iface_uri, NETWORK "hasAddressAssignment", .res (EX assignment.id)⟩) g
  let g := g.pyAddOptStr i.connected_to_link_id
    (fun link_id => ⟨iface_uri, NETWORK "ConnectedToLink", .res (EX link_id)⟩)
  let g := g.pyAddOptStr i.belongs_to_node_id
    (fun node_id => ⟨iface_uri, NETWORK "BelongsToNode", .res (EX node_id)⟩)
  let g := g.add ⟨iface_uri, NETWORK "portMode", .lit (pyLit i.port_mode.toStr)⟩
  match i.port_mode with
  | .ACCESS =>
    match i.access_vlan_id with
    | some vlan_id =>
      g.add ⟨iface_uri, NETWORK "accessVlan",
        .res (EX ("VLAN" ++ toString vlan_id ++ "_obj"))⟩
    | none => g
  | .TRUNK =>
    i.allowed_vlan_ids.foldl
      (fun g vlan_id =>
        g.add ⟨iface_uri, NETWORK "allowedVlan",
          .res (EX ("VLAN" ++ toString vlan_id ++ "_obj"))⟩) g
  | .UNCONFIGURED => g

/-- The `accessVlan`/`allowedVlan` triples of `Iface.to_rdf`, as a pure
list. -/
def Iface.vlanTriples (i : Iface) : List Triple :=
  match i.port_mode with
  | .ACCESS =>
    optTriples i.access_vlan_id
      (fun vlan_id => ⟨EX i.id, NETWORK "accessVlan",
        .res (EX ("VLAN" ++ toString vlan_id ++ "_obj"))⟩)
  | .TRUNK =>
    i.allowed_vlan_ids.map
      (fun vlan_id => ⟨EX i.id, NETWORK "allowedVlan",
        .res (EX ("VLAN" ++ toString vlan_id ++ "_obj"))⟩)
  | .UNCONFIGURED => []

/-- Pure triple list of `Iface.to_rdf`. -/
def Iface.triples (i : Iface) : List Triple :=
  [⟨EX i.id, rdfType, .res (NETWORK "Iface")⟩,
   ⟨EX i.id, rdfsLabel, .lit (pyLit i.id)⟩]
  ++ optStrTriples i.description (fun d => ⟨EX i.id, rdfsComment, .lit (pyLit d)⟩)
  ++ [⟨EX i.id, NETWORK "HWStatus", .lit (pyLit i.hw_status.toStr)⟩]
  ++ i.has_address_assignments.flatMap
      (fun assignment => assignment.triples
        ++ [⟨EX i.id, NETWORK "hasAddressAssignment", .res (EX assignment.id)⟩])
  ++ optStrTriples i.connected_to_link_id
      (fun link_id => ⟨EX i.id, NETWORK "ConnectedToLink", .res (EX link_id)⟩)
  ++ optStrTriples i.belongs_to_node_id
      (fun node_id => ⟨EX i.id, NETWORK "BelongsToNode", .res (EX node_id)⟩)
  ++ [⟨EX i.id, NETWORK "portMode", .lit (pyLit i.port_mode.toStr)⟩]
  ++ i.vlanTriples

theorem iface_to_rdf_eq (i : Iface) (g : Graph) :
    i.to_rdf g = g.addList i.triples := by
  simp only [Iface.to_rdf, Iface.triples, Iface.vlanTriples,
    addressAssignment_to_rdf_eq, Graph.foldl_addList_add, Graph.pyAddOptStr_eq,
    Graph.foldl_add_map, Graph.addList_append, Graph.addList_cons,
    Graph.addList_nil, Graph.addList_singleton]
  cases i.port_mode with
  | ACCESS =>
    cases i.access_vlan_id with
    | none => rfl
    | some vlan_id => rfl
  | TRUNK =>
    simp only [Graph.foldl_add_map]
  | UNCONFIGURED => rfl

/-- `Link.to_rdf`: optional scalars are guarded with `is not None`;
`Bandwidth`/`Cost` use `Literal(int)` (auto-typed `xsd:integer`), and the
interface references are emitted as `hasInterface` edges. -/
def Link.to_rdf (l : Link) (g : Graph) : Graph :=
  let link_uri := EX l.id
  let g := g.add ⟨link_uri, rdfType, .res (NETWORK "Link")⟩
  let g := g.add ⟨link_uri, rdfsLabel, .lit (pyLit l.id)⟩
  let g := g.pyAddOptStr l.description
    (fun d => ⟨link_uri, rdfsComment, .lit (pyLit d)⟩)
  let g := g.add ⟨link_uri, NETWORK "HWStatus", .lit (pyLit l.hw_status.toStr)⟩
  let g := g.pyAddOpt l.bandwidth
    (fun b => ⟨link_uri, NETWORK "Bandwidth", .lit (pyLitInt b)⟩)
  let g := g.pyAddOpt l.technology
    (fun t => ⟨link_uri, NETWORK "Technology", .lit (pyLit t)⟩)
  let g := g.pyAddOpt l.cost
    (fun c => ⟨link_uri, NETWORK "Cost", .lit (pyLitInt c)⟩)
  l.interface_ids.foldl
    (fun g iface_id => g.add ⟨link_uri, NETWORK "hasInterface", .res (EX iface_id)⟩) g

/-- Pure triple list of `Link.to_rdf`. -/
def Link.triples (l : Link) : List Triple :=
  [⟨EX l.id, rdfType, .res (NETWORK "Link")⟩,
   ⟨EX l.id, rdfsLabel, .lit (pyLit l.id)⟩]
  ++ optStrTriples l.description (fun d => ⟨EX l.id, rdfsComment, .lit (pyLit d)⟩)
  ++ [⟨EX l.id, NETWORK "HWStatus", .lit (pyLit l.hw_status.toStr)⟩]
  ++ optTriples l.bandwidth (fun b => ⟨EX l.id, NETWORK "Bandwidth", .lit (pyLitInt b)⟩)
  ++ optTriples l.technology (fun t => ⟨EX l.id, NETWORK "Technology", .lit (pyLit t)⟩)
  ++ optTriples l.cost (fun c => ⟨EX l.id, NETWORK "Cost", .lit (pyLitInt c)⟩)
  ++ l.interface_ids.map
      (fun iface_id => ⟨EX l.id, NETWORK "hasInterface", .res (EX iface_id)⟩)

theorem link_to_rdf_eq (l : Link) (g : Graph) :
    l.to_rdf g = g.addList l.triples := by
  simp only [Link.to_rdf, Link.triples, Graph.pyAddOptStr_eq, Graph.pyAddOpt_eq,
    Graph.foldl_add_map, Graph.addList_append, Graph.addList_cons,
    Graph.addList_nil, Graph.addList_singleton]

/-- `Node.to_rdf`: adds *no* rdf:type triple for itself (the source
comments the generic `Node` type out, expecting subclasses to supply
one); links interfaces with a checked inverse `BelongsToNode`, and
neighbors with a checked symmetric `HasNeighbor`. -/
def Node.to_rdf (n : Node) (g : Graph) : Graph :=
  let node_uri := EX n.id
  let g := g.add ⟨node_uri, rdfsLabel, .lit (pyLit n.id)⟩
  let g := g.pyAddOptStr n.description
    (fun d => ⟨node_uri, rdfsComment, .lit (pyLit d)⟩)
  let g := g.add ⟨node_uri, NETWORK "HWStatus", .lit (pyLit n.hw_status.toStr)⟩
  let g := n.has_iface_ids.foldl
    (fun g iface_id =>
      let g := g.add ⟨node_uri, NETWORK "HasIFace", .res (EX iface_id)⟩
      if (⟨EX iface_id, NETWORK "BelongsToNode", .res node_uri⟩ : Triple) ∈ g then g
      else g.add ⟨EX iface_id, NETWORK "BelongsToNode", .res node_uri⟩) g
  n.has_neighbor_ids.foldl
    (fun g neighbor_id =>
      let g := g.add ⟨node_uri, NETWORK "HasNeighbor", .res (EX neighbor_id)⟩
      if (⟨EX neighbor_id, NETWORK "HasNeighbor", .res node_uri⟩ : Triple) ∈ g then g
      else g.add ⟨EX neighbor_id, NETWORK "HasNeighbor", .res node_uri⟩) g

/-- Pure triple list of `Node.to_rdf`.  Note: no rdf:type triple. -/
def Node.triples (n : Node) : List Triple :=
  [⟨EX n.id, rdfsLabel, .lit (pyLit n.id)⟩]
  ++ optStrTriples n.description (fun d => ⟨EX n.id, rdfsComment, .lit (pyLit d)⟩)
  ++ [⟨EX n.id, NETWORK "HWStatus", .lit (pyLit n.hw_status.toStr)⟩]
  ++ n.has_iface_ids.flatMap
      (fun iface_id =>
        [⟨EX n.id, NETWORK "HasIFace", .res (EX iface_id)⟩,
         ⟨EX iface_id, NETWORK "BelongsToNode", .res (EX n.id)⟩])
  ++ n.has_neighbor_ids.flatMap
      (fun neighbor_id =>
        [⟨EX n.id, NETWORK "HasNeighbor", .res (EX neighbor_id)⟩,
         ⟨EX neighbor_id, NETWORK "HasNeighbor", .res (EX n.id)⟩])

theorem node_to_rdf_eq (n : Node) (g : Graph) :
    n.to_rdf g = g.addList n.triples := by
  simp only [Node.to_rdf, Node.triples, Graph.add_mem_absorb,
    Graph.foldl_add2, Graph.pyAddOptStr_eq, Graph.addList_append,
    Graph.addList_cons, Graph.addList_nil, Graph.addList_singleton]

/-- `Host.to_rdf`: adds the specific `Host` type triple and then runs the
inherited `Node` serialization. -/
def Host.to_rdf (h : Host) (g : Graph) : Graph :=
  let host_uri := EX h.id
  let g := g.add ⟨host_uri, rdfType, .res (NETWORK "Host")⟩
  h.toNode.to_rdf g

/-- Pure triple list of `Host.to_rdf`. -/
def Host.triples (h : Host) : List Triple :=
  ⟨EX h.id, rdfType, .res (NETWORK "Host")⟩ :: h.toNode.triples

theorem host_to_rdf_eq (h : Host) (g : Graph) :
    h.to_rdf g = g.addList h.triples := by
  simp only [Host.to_rdf, Host.triples, node_to_rdf_eq, Graph.addList_cons]

/-- `Router.to_rdf`: specific `Router` type triple, inherited `Node`
serialization, then the `routesSubnet` references. -/
def Router.to_rdf (r : Router) (g : Graph) : Graph :=
  let router_uri := EX r.id
  let g := g.add ⟨router_uri, rdfType, .res (NETWORK "Router")⟩
  let g := r.toNode.to_rdf g
  r.routes_subnet_ids.foldl
    (fun g subnet_id =>
      g.add ⟨router_uri, NETWORK "routesSubnet", .res (EX subnet_id)⟩) g

/-- Pure triple list of `Router.to_rdf`. -/
def Router.triples (r : Router) : List Triple :=
  ⟨EX r.id, rdfType, .res (NETWORK "Router")⟩ :: r.toNode.triples
  ++ r.routes_subnet_ids.map
      (fun subnet_id => ⟨EX r.id, NETWORK "routesSubnet", .res (EX subnet_id)⟩)

theorem router_to_rdf_eq (r : Router) (g : Graph) :
    r.to_rdf g = g.addList r.triples := by
  simp only [Router.to_rdf, Router.triples, node_to_rdf_eq,
    Graph.foldl_add_map, Graph.addList_cons, Graph.addList_append]

/-- `Switch.to_rdf`: specific `Switch` type triple, then the inherited
`Node` serialization. -/
def Switch.to_rdf (s : Switch) (g : Graph) : Graph :=
  let switch_uri := EX s.id
  let g := g.add ⟨switch_uri, rdfType, .res (NETWORK "Switch")⟩
  s.toNode.to_rdf g

/-- Pure triple list of `Switch.to_rdf`. -/
def Switch.triples (s : Switch) : List Triple :=
  ⟨EX s.id, rdfType, .res (NETWORK "Switch")⟩ :: s.toNode.triples

theorem switch_to_rdf_eq (s : Switch) (g : Graph) :
    s.to_rdf g = g.addList s.triples := by
  simp only [Switch.to_rdf, Switch.triples, node_to_rdf_eq, Graph.addList_cons]

/-! ## The emission engine -/

/-- One validated entity of any kind in the model, as collected in the
`entities` list handed to the population loop. -/
inductive Entity
  | base (e : BaseEntity)
  | hw (e : HWNetEntity)
  | vlan (v : VLAN)
  | subnet (s : Subnet)
  | addr (a : AddressAssignment)
  | iface (i : Iface)
  | link (l : Link)
  | node (n : Node)
  | host (h : Host)
  | router (r : Router)
  | switch (s : Switch)
deriving DecidableEq, Repr

/-- Polymorphic dispatch of `entity.to_rdf(g)`. -/
def Entity.toRdf : Entity → Graph → Graph
  | .base e, g => e.to_rdf g
  | .hw e, g => e.to_rdf g
  | .vlan v, g => v.to_rdf g
  | .subnet s, g => s.to_rdf g
  | .addr a, g => a.to_rdf g
  | .iface i, g => i.to_rdf g
  | .link l, g => l.to_rdf g
  | .node n, g => n.to_rdf g
  | .host h, g => h.to_rdf g
  | .router r, g => r.to_rdf g
  | .switch s, g => s.to_rdf g

/-- The entity's `id` field. -/
def Entity.entityId : Entity → String
  | .base e => e.id
  | .hw e => e.id
  | .vlan v => v.id
  | .subnet s => s.id
  | .addr a => a.id
  | .iface i => i.id
  | .link l => l.id
  | .node n => n.id
  | .host h => h.id
  | .router r => r.id
  | .switch s => s.id

/-- The pure triple list an entity's `to_rdf` emits. -/
def Entity.triples : Entity → List Triple
  | .base e => e.triples
  | .hw e => e.triples
  | .vlan v => v.triples
  | .subnet s => s.triples
  | .addr a => a.triples
  | .iface i => i.triples
  | .link l => l.triples
  | .node n => n.triples
  | .host h => h.triples
  | .router r => r.triples
  | .switch s => s.triples

theorem Entity.toRdf_eq (e : Entity) (g : Graph) :
    e.toRdf g = g.addList e.triples := by
  cases e <;>
    simp only [Entity.toRdf, Entity.triples, baseEntity_to_rdf_eq,
      hwNetEntity_to_rdf_eq, vlan_to_rdf_eq, subnet_to_rdf_eq,
      addressAssignment_to_rdf_eq, iface_to_rdf_eq, link_to_rdf_eq,
      node_to_rdf_eq, host_to_rdf_eq, router_to_rdf_eq, switch_to_rdf_eq]

/-- The population loop body of `generate_network_rdf`, without failure:
`for entity in entities: entity.to_rdf(g)`. -/
def emitAll (entities : List Entity) (g : Graph) : Graph :=
  entities.foldl (fun g entity => entity.toRdf g) g

theorem emitAll_eq (entities : List Entity) (g : Graph) :
    emitAll entities g = g.addList (entities.flatMap Entity.triples) := by
  induction entities generalizing g with
  | nil => rfl
  | cons e es ih =>
    simp only [emitAll, List.foldl_cons, List.flatMap_cons, Graph.addList_append]
    rw [Entity.toRdf_eq]
    exact ih (g.addList e.triples)

theorem mem_emitAll {entities : List Entity} {g : Graph} {t : Triple} :
    t ∈ emitAll entities g ↔ t ∈ g ∨ ∃ e ∈ entities, t ∈ e.triples := by
  simp [emitAll_eq, Graph.mem_addList, List.mem_flatMap]

theorem emitAll_nodup {entities : List Entity} {g : Graph} (h : g.Nodup) :
    (emitAll entities g).Nodup := by
  rw [emitAll_eq]
  exact Graph.addList_nodup h

/-- One iteration's outcome in the population loop: either the entity's
`to_rdf` ran to completion, or it raised partway through — in Python the
triples added before the raise stay in the graph, so the failing step
carries the list it managed to add before the exception message. -/
inductive EmitStep
  | ok (e : Entity)
  | fails (eid : String) (ts : List Triple) (msg : String)
deriving DecidableEq, Repr

/-- Run one step of the loop: the updated graph and the exception
message, if one was raised. -/
def EmitStep.run : EmitStep → Graph → Graph × Option String
  | .ok e, g => (e.toRdf g, none)
  | .fails _ ts msg, g => (g.addList ts, some msg)

/-- The id printed in the per-entity error report. -/
def EmitStep.eid : EmitStep → String
  | .ok e => e.entityId
  | .fails eid _ _ => eid

/-- The population loop of `generate_network_rdf` (main.py):

    for entity in entities:
        try:
            entity.to_rdf(g)
        except Exception as e:
            click.echo(f"Error processing entity {entity.id}: {e}", ...)

Each failure is reported and the loop continues; nothing propagates. -/
def populateGraph : List EmitStep → Graph → List String → Graph × List String
  | [], g, errs => (g, errs)
  | step :: rest, g, errs =>
    match step.run g with
    | (g', none) => populateGraph rest g' errs
    | (g', some msg) =>
      populateGraph rest g'
        (errs ++ ["Error processing entity " ++ step.eid ++ ": " ++ msg])

/-- The triples a step contributes. -/
def EmitStep.stepTriples : EmitStep → List Triple
  | .ok e => e.triples
  | .fails _ ts _ => ts

/-- The error reports a step contributes. -/
def EmitStep.stepErrs : EmitStep → List String
  | .ok _ => []
  | .fails eid _ msg => ["Error processing entity " ++ eid ++ ": " ++ msg]

theorem populateGraph_fst (steps : List EmitStep) (g : Graph) (errs : List String) :
    (populateGraph steps g errs).1 = g.addList (steps.flatMap EmitStep.stepTriples) := by
  induction steps generalizing g errs with
  | nil => rfl
  | cons step rest ih =>
    cases step with
    | ok e =>
      simp only [populateGraph, EmitStep.run, EmitStep.stepTriples,
        List.flatMap_cons, Graph.addList_append, ih, Entity.toRdf_eq]
    | fails eid ts msg =>
      simp only [populateGraph, EmitStep.run, EmitStep.eid, EmitStep.stepTriples,
        List.flatMap_cons, Graph.addList_append, ih]

theorem populateGraph_snd (steps : List EmitStep) (g : Graph) (errs : List String) :
    (populateGraph steps g errs).2 = errs ++ steps.flatMap EmitStep.stepErrs := by
  induction steps generalizing g errs with
  | nil => simp [populateGraph]
  | cons step rest ih =>
    cases step with
    | ok e =>
      simp only [populateGraph, EmitStep.run, EmitStep.stepErrs,
        List.flatMap_cons, List.nil_append, ih]
    | fails eid ts msg =>
      simp only [populateGraph, EmitStep.run, EmitStep.eid, EmitStep.stepErrs,
        List.flatMap_cons, ih, List.append_assoc, List.singleton_append,
        List.cons_append, List.nil_append]

/-! ## Claim theorems -/

/-- Set equality of two triple stores, decidably: each is contained in
the other. -/
def Graph.sameSet (g₁ g₂ : Graph) : Bool :=
  g₁.all (fun t => decide (t ∈ g₂)) && g₂.all (fun t => decide (t ∈ g₁))

theorem Graph.sameSet_iff {g₁ g₂ : Graph} :
    Graph.sameSet g₁ g₂ = true ↔ ∀ t, t ∈ g₁ ↔ t ∈ g₂ := by
  simp only [Graph.sameSet, Bool.and_eq_true, List.all_eq_true,
    decide_eq_true_eq]
  constructor
  · rintro ⟨h₁, h₂⟩ t
    exact ⟨h₁ t, h₂ t⟩
  · intro h
    exact ⟨fun t ht => (h t).mp ht, fun t ht => (h t).mpr ht⟩

/-- Claim C1: for every fixed collection of validated entities and every
permutation of that collection, running the emission loop (each entity's
`to_rdf` once, in input order, over one fresh graph) produces the same
triple set (set equality) as running it on the other permutation. -/
theorem claim1_order_independence (es₁ es₂ : List Entity)
    (hperm : es₁.Perm es₂) :
    Graph.sameSet (emitAll es₁ Graph.empty) (emitAll es₂ Graph.empty) = true := by
  rw [Graph.sameSet_iff]
  intro t
  simp only [mem_emitAll, Graph.empty, List.not_mem_nil, false_or]
  constructor
  · rintro ⟨e, he, ht⟩
    exact ⟨e, hperm.mem_iff.mp he, ht⟩
  · rintro ⟨e, he, ht⟩
    exact ⟨e, hperm.mem_iff.mpr he, ht⟩

/-- A VLAN entity used in concrete witnesses. -/
def wVlan : VLAN := ⟨⟨⟨"VLAN10_obj", none⟩⟩, 10, some "Users", []⟩

/-- A Router entity used in concrete witnesses. -/
def wRouter : Router := ⟨⟨⟨⟨"Router1", none⟩, .ON⟩, ["R1_Eth0"], ["Switch1"]⟩, []⟩

/-- Witness for C1: two concrete permutations of the same two-entity
collection emit the same triple set. -/
theorem claim1_order_independence_witness :
    Graph.sameSet (emitAll [.vlan wVlan, .router wRouter] Graph.empty)
      (emitAll [.router wRouter, .vlan wVlan] Graph.empty) = true :=
  claim1_order_independence [.vlan wVlan, .router wRouter]
    [.router wRouter, .vlan wVlan] (by decide)

/-- Claim C6: `Iface` construction raises a validation error exactly on
the forbidden port-mode/VLAN combinations (ACCESS with non-empty
allowed_vlans, TRUNK with access_vlan set, UNCONFIGURED with either
set), and on success returns the interface value unchanged — so no
partially-built value is ever observable on failure. -/
theorem claim6_port_mode_validation (i : Iface) :
    ((∃ m, i.check_vlan_mode_consistency = .error m) ↔
      ((i.port_mode = .ACCESS ∧ i.allowed_vlan_ids ≠ []) ∨
       (i.port_mode = .TRUNK ∧ i.access_vlan_id ≠ none) ∨
       (i.port_mode = .UNCONFIGURED ∧
         (i.access_vlan_id ≠ none ∨ i.allowed_vlan_ids ≠ []))))
    ∧ (i.check_vlan_mode_consistency = .ok i ∨
       ∃ m, i.check_vlan_mode_consistency = .error m) := by
  obtain ⟨hw, assigns, clink, bnode, pm, avid, allowed⟩ := i
  cases pm <;> cases avid <;> cases allowed <;>
    simp [Iface.check_vlan_mode_consistency]

/-- Emitting a node whose neighbor list contains `nid` contributes both
the forward and the symmetric `HasNeighbor` triple. -/
theorem Node.neighbor_triples_mem {n : Node} {nid : String}
    (h : nid ∈ n.has_neighbor_ids) :
    (⟨EX n.id, NETWORK "HasNeighbor", .res (EX nid)⟩ : Triple) ∈ n.triples ∧
    (⟨EX nid, NETWORK "HasNeighbor", .res (EX n.id)⟩ : Triple) ∈ n.triples := by
  constructor <;>
  · simp only [Node.triples, List.mem_append, List.mem_flatMap]
    refine Or.inr ⟨nid, h, ?_⟩
    simp

/-- Claim C2: for nodes A and B that each list the other as neighbor,
emitting any sequence drawn from the two nodes that contains both of
them yields the A→B `HasNeighbor` triple exactly once and the B→A
triple exactly once — never a duplicated edge in either direction. -/
theorem claim2_symmetric_neighbor_edges (na nb : Node) (es : List Entity)
    (hab : nb.id ∈ na.has_neighbor_ids) (_hba : na.id ∈ nb.has_neighbor_ids)
    (ha : Entity.node na ∈ es) (_hb : Entity.node nb ∈ es)
    (_honly : ∀ e ∈ es, e = Entity.node na ∨ e = Entity.node nb) :
    (emitAll es Graph.empty).count
      ⟨EX na.id, NETWORK "HasNeighbor", .res (EX nb.id)⟩ = 1 ∧
    (emitAll es Graph.empty).count
      ⟨EX nb.id, NETWORK "HasNeighbor", .res (EX na.id)⟩ = 1 := by
  have hnodup : (emitAll es Graph.empty).Nodup := emitAll_nodup List.nodup_nil
  obtain ⟨hmem₁, hmem₂⟩ := Node.neighbor_triples_mem hab
  constructor
  · exact List.count_eq_one_of_mem hnodup
      (mem_emitAll.mpr (Or.inr ⟨Entity.node na, ha, hmem₁⟩))
  · exact List.count_eq_one_of_mem hnodup
      (mem_emitAll.mpr (Or.inr ⟨Entity.node na, ha, hmem₂⟩))

/-- First concrete node for the C2 witness. -/
def wNodeA : Node := ⟨⟨⟨"R1", none⟩, .ON⟩, [], ["Sw1"]⟩

/-- Second concrete node for the C2 witness. -/
def wNodeB : Node := ⟨⟨⟨"Sw1", none⟩, .ON⟩, [], ["R1"]⟩

/-- Witness for C2: two mutually-neighboring nodes, one emitted twice,
still give each direction exactly once. -/
theorem claim2_symmetric_neighbor_edges_witness :
    (emitAll [.node wNodeA, .node wNodeB, .node wNodeA] Graph.empty).count
      ⟨EX "R1", NETWORK "HasNeighbor", .res (EX "Sw1")⟩ = 1 ∧
    (emitAll [.node wNodeA, .node wNodeB, .node wNodeA] Graph.empty).count
      ⟨EX "Sw1", NETWORK "HasNeighbor", .res (EX "R1")⟩ = 1 :=
  claim2_symmetric_neighbor_edges wNodeA wNodeB
    [.node wNodeA, .node wNodeB, .node wNodeA]
    (by decide) (by decide) (by decide) (by decide) (by decide)

/-- Emitting an interface with a non-empty connected-link reference
contributes the `ConnectedToLink` triple. -/
theorem Iface.connected_triple_mem {i : Iface} {lid : String}
    (h : i.connected_to_link_id = some lid) (hne : lid ≠ "") :
    (⟨EX i.id, NETWORK "ConnectedToLink", .res (EX lid)⟩ : Triple) ∈ i.triples := by
  simp [Iface.triples, optStrTriples, h, hne]

/-- Emitting a link whose interface list contains `iid` contributes the
`hasInterface` triple. -/
theorem Link.hasInterface_triple_mem {l : Link} {iid : String}
    (h : iid ∈ l.interface_ids) :
    (⟨EX l.id, NETWORK "hasInterface", .res (EX iid)⟩ : Triple) ∈ l.triples := by
  simp only [Link.triples, List.mem_append, List.mem_map]
  exact Or.inr ⟨iid, h, rfl⟩

/-- Claim C3: for an interface that references a link (with a non-empty
link id) and the link that lists that interface, emitting any sequence
drawn from the two entities containing both of them yields the
`ConnectedToLink` edge and the inverse `hasInterface` edge, each exactly
once, whichever runs first and however often each is emitted. -/
theorem claim3_interface_link_edges (i : Iface) (l : Link) (es : List Entity)
    (hconn : i.connected_to_link_id = some l.id) (hlid : l.id ≠ "")
    (hil : i.id ∈ l.interface_ids)
    (hi : Entity.iface i ∈ es) (hl : Entity.link l ∈ es)
    (_honly : ∀ e ∈ es, e = Entity.iface i ∨ e = Entity.link l) :
    (emitAll es Graph.empty).count
      ⟨EX i.id, NETWORK "ConnectedToLink", .res (EX l.id)⟩ = 1 ∧
    (emitAll es Graph.empty).count
      ⟨EX l.id, NETWORK "hasInterface", .res (EX i.id)⟩ = 1 := by
  have hnodup : (emitAll es Graph.empty).Nodup := emitAll_nodup List.nodup_nil
  constructor
  · exact List.count_eq_one_of_mem hnodup
      (mem_emitAll.mpr (Or.inr ⟨Entity.iface i, hi,
        Iface.connected_triple_mem hconn hlid⟩))
  · exact List.count_eq_one_of_mem hnodup
      (mem_emitAll.mpr (Or.inr ⟨Entity.link l, hl,
        Link.hasInterface_triple_mem hil⟩))

/-- Concrete interface for the C3 witness. -/
def wIface : Iface :=
  ⟨⟨⟨"R1_Eth0", none⟩, .ON⟩, [], some "L1", some "R1", .UNCONFIGURED, none, []⟩

/-- Concrete link for the C3 witness. -/
def wLink : Link := ⟨⟨⟨"L1", none⟩, .ON⟩, none, some "Ethernet", none, ["R1_Eth0"]⟩

/-- Witness for C3: the interface–link pair emitted in link-first order,
the link twice, still gives each direction exactly once. -/
theorem claim3_interface_link_edges_witness :
    (emitAll [.link wLink, .iface wIface, .link wLink] Graph.empty).count
      ⟨EX "R1_Eth0", NETWORK "ConnectedToLink", .res (EX "L1")⟩ = 1 ∧
    (emitAll [.link wLink, .iface wIface, .link wLink] Graph.empty).count
      ⟨EX "L1", NETWORK "hasInterface", .res (EX "R1_Eth0")⟩ = 1 :=
  claim3_interface_link_edges wIface wLink
    [.link wLink, .iface wIface, .link wLink]
    (by decide) (by decide) (by decide) (by decide) (by decide) (by decide)

/-- One-way inversion for `optStrTriples`: any member is `f` applied to
the stored string. -/
theorem mem_optStrTriples {o : Option String} {f : String → Triple} {t : Triple}
    (h : t ∈ optStrTriples o f) : ∃ sv, t = f sv := by
  cases o with
  | none => cases h
  | some s =>
    by_cases hs : s = "" <;> simp [optStrTriples, hs] at h
    exact ⟨s, h⟩

/-- One-way inversion for `optTriples`. -/
theorem mem_optTriples {α : Type} {o : Option α} {f : α → Triple} {t : Triple}
    (h : t ∈ optTriples o f) : ∃ v, t = f v := by
  cases o with
  | none => cases h
  | some v =>
    simp [optTriples] at h
    exact ⟨v, h⟩

/-- Every triple a Subnet emits that is an is-a or label triple is the
canonical one built from its CIDR — the nominal id never appears in
either. -/
theorem Subnet.triples_char (s : Subnet) :
    ∀ t ∈ s.triples,
      (t.pred = rdfType → t = ⟨s.to_uri, rdfType, .res (NETWORK "Subnet")⟩) ∧
      (t.pred = rdfsLabel →
        t = ⟨s.to_uri, rdfsLabel, .lit (pyLit ("Subnet " ++ s.cidr))⟩) := by
  intro t ht
  have hne₁ : rdfsComment ≠ rdfType := by decide
  have hne₂ : rdfsComment ≠ rdfsLabel := by decide
  have hne₃ : NETWORK "subnetCidr" ≠ rdfType := by decide
  have hne₄ : NETWORK "subnetCidr" ≠ rdfsLabel := by decide
  have hne₅ : rdfsLabel ≠ rdfType := by decide
  have hne₆ : rdfType ≠ rdfsLabel := by decide
  simp only [Subnet.triples, List.mem_append, List.mem_cons,
    List.not_mem_nil, or_false] at ht
  rcases ht with ((rfl | rfl) | hopt) | rfl
  · exact ⟨fun _ => rfl, fun hp => absurd hp hne₆⟩
  · exact ⟨fun hp => absurd hp hne₅, fun _ => rfl⟩
  · obtain ⟨sv, rfl⟩ := mem_optStrTriples hopt
    exact ⟨fun hp => absurd hp hne₁, fun hp => absurd hp hne₂⟩
  · exact ⟨fun hp => absurd hp hne₃, fun hp => absurd hp hne₄⟩

/-- Claim C5: two Subnets with different nominal ids but the same CIDR
resolve to the same graph node `Subnet_` + cidr with `/` replaced by `_`
(e.g. `10.0.0.0/24` gives `Subnet_10.0.0.0_24`), and emitting both into
one graph leaves exactly one is-a triple and one label triple for that
node — the only is-a/label triples present at all. -/
theorem claim5_subnet_canonicalization (s₁ s₂ : Subnet) (hc : s₁.cidr = s₂.cidr) :
    Subnet.to_uri s₁ = Subnet.to_uri s₂ ∧
    (Subnet.to_rdf s₂ (Subnet.to_rdf s₁ Graph.empty)).count
      ⟨s₁.to_uri, rdfType, .res (NETWORK "Subnet")⟩ = 1 ∧
    (Subnet.to_rdf s₂ (Subnet.to_rdf s₁ Graph.empty)).count
      ⟨s₁.to_uri, rdfsLabel, .lit (pyLit ("Subnet " ++ s₁.cidr))⟩ = 1 ∧
    (∀ t ∈ Subnet.to_rdf s₂ (Subnet.to_rdf s₁ Graph.empty),
      (t.pred = rdfType → t = ⟨s₁.to_uri, rdfType, .res (NETWORK "Subnet")⟩) ∧
      (t.pred = rdfsLabel →
        t = ⟨s₁.to_uri, rdfsLabel, .lit (pyLit ("Subnet " ++ s₁.cidr))⟩)) ∧
    Subnet.to_uri ⟨⟨⟨"IrrelevantID", none⟩⟩, "10.0.0.0/24"⟩ = EX "Subnet_10.0.0.0_24" := by
  have huri : Subnet.to_uri s₁ = Subnet.to_uri s₂ := by
    simp [Subnet.to_uri, hc]
  have hnodup : (Subnet.to_rdf s₂ (Subnet.to_rdf s₁ Graph.empty)).Nodup := by
    rw [subnet_to_rdf_eq, subnet_to_rdf_eq]
    exact Graph.addList_nodup (Graph.addList_nodup List.nodup_nil)
  have hsplit : ∀ t ∈ Subnet.to_rdf s₂ (Subnet.to_rdf s₁ Graph.empty),
      t ∈ s₁.triples ∨ t ∈ s₂.triples := by
    intro t ht
    rw [subnet_to_rdf_eq, subnet_to_rdf_eq] at ht
    rcases Graph.mem_addList.mp ht with h | h
    · rcases Graph.mem_addList.mp h with h' | h'
      · exact absurd h' (List.not_mem_nil t)
      · exact Or.inl h'
    · exact Or.inr h
  have htype : (⟨s₁.to_uri, rdfType, .res (NETWORK "Subnet")⟩ : Triple)
      ∈ Subnet.to_rdf s₂ (Subnet.to_rdf s₁ Graph.empty) := by
    rw [subnet_to_rdf_eq, subnet_to_rdf_eq]
    refine Graph.mem_addList.mpr (Or.inl (Graph.mem_addList.mpr (Or.inr ?_)))
    simp [Subnet.triples]
  have hlabel : (⟨s₁.to_uri, rdfsLabel, .lit (pyLit ("Subnet " ++ s₁.cidr))⟩ : Triple)
      ∈ Subnet.to_rdf s₂ (Subnet.to_rdf s₁ Graph.empty) := by
    rw [subnet_to_rdf_eq, subnet_to_rdf_eq]
    refine Graph.mem_addList.mpr (Or.inl (Graph.mem_addList.mpr (Or.inr ?_)))
    simp [Subnet.triples]
  refine ⟨huri, List.count_eq_one_of_mem hnodup htype,
    List.count_eq_one_of_mem hnodup hlabel, ?_, by decide⟩
  intro t ht
  rcases hsplit t ht with h | h
  · exact Subnet.triples_char s₁ t h
  · have := Subnet.triples_char s₂ t h
    rw [← huri, ← hc] at this
    exact this

/-- Witness for C5, at two concrete Subnets with different nominal ids
and the CIDR `10.0.0.0/24`. -/
theorem claim5_subnet_canonicalization_witness :
    Subnet.to_uri ⟨⟨⟨"SubnetA", none⟩⟩, "10.0.0.0/24"⟩
      = Subnet.to_uri ⟨⟨⟨"SubnetB", none⟩⟩, "10.0.0.0/24"⟩ ∧
    (Subnet.to_rdf ⟨⟨⟨"SubnetB", none⟩⟩, "10.0.0.0/24"⟩
      (Subnet.to_rdf ⟨⟨⟨"SubnetA", none⟩⟩, "10.0.0.0/24"⟩ Graph.empty)).count
      ⟨Subnet.to_uri ⟨⟨⟨"SubnetA", none⟩⟩, "10.0.0.0/24"⟩, rdfType,
        .res (NETWORK "Subnet")⟩ = 1 :=
  ⟨(claim5_subnet_canonicalization ⟨⟨⟨"SubnetA", none⟩⟩, "10.0.0.0/24"⟩
      ⟨⟨⟨"SubnetB", none⟩⟩, "10.0.0.0/24"⟩ rfl).1,
   (claim5_subnet_canonicalization ⟨⟨⟨"SubnetA", none⟩⟩, "10.0.0.0/24"⟩
      ⟨⟨⟨"SubnetB", none⟩⟩, "10.0.0.0/24"⟩ rfl).2.1⟩

/-! ## The CLI model family (main.py)

Both main.py modules define their own pydantic models, separate from
models.py.  Their `VLAN.to_rdf` differs from the models.py one: the
subject is `EX[f"VLAN{self.vlan_id}"]`, computed from the numeric vlan
id, and the nominal id field is never read. -/

/-- `class VLAN(LogicalEntity)` as defined in main.py. -/
structure CliVLAN where
  id : String
  vlan_id : Int
  name : Option String := none
deriving DecidableEq, Repr

/-- `VLAN.to_rdf` from main.py (lines 49–57 of the top-level module and
54–62 of the packaged module): subject `EX[f"VLAN{self.vlan_id}"]`,
label built from the vlan id and optional name, `vlanId` emitted as
`Literal(int)` (auto-typed integer). -/
def CliVLAN.to_rdf (v : CliVLAN) (g : Graph) : Graph :=
  let vlan_instance_uri := EX ("VLAN" ++ toString v.vlan_id)
  let g := g.add ⟨vlan_instance_uri, rdfType, .res (NETWORK "VLAN")⟩
  let labelStr := "VLAN " ++ toString v.vlan_id ++
    (match v.name with
     | some nm => if nm = "" then "" else " (" ++ nm ++ ")"
     | none => "")
  let g := g.add ⟨vlan_instance_uri, rdfsLabel, .lit (pyLit labelStr)⟩
  let g := g.add ⟨vlan_instance_uri, NETWORK "vlanId", .lit (pyLitInt v.vlan_id)⟩
  g.pyAddOptStr v.name
    (fun nm => ⟨vlan_instance_uri, NETWORK "vlanName", .lit (pyLit nm)⟩)

/-- Pure triple list of `CliVLAN.to_rdf`. -/
def CliVLAN.triples (v : CliVLAN) : List Triple :=
  [⟨EX ("VLAN" ++ toString v.vlan_id), rdfType, .res (NETWORK "VLAN")⟩,
   ⟨EX ("VLAN" ++ toString v.vlan_id), rdfsLabel,
    .lit (pyLit ("VLAN " ++ toString v.vlan_id ++
      (match v.name with
       | some nm => if nm = "" then "" else " (" ++ nm ++ ")"
       | none => "")))⟩,
   ⟨EX ("VLAN" ++ toString v.vlan_id), NETWORK "vlanId", .lit (pyLitInt v.vlan_id)⟩]
  ++ optStrTriples v.name
      (fun nm => ⟨EX ("VLAN" ++ toString v.vlan_id), NETWORK "vlanName",
        .lit (pyLit nm)⟩)

theorem cliVlan_to_rdf_eq (v : CliVLAN) (g : Graph) :
    v.to_rdf g = g.addList v.triples := by
  simp only [CliVLAN.to_rdf, CliVLAN.triples, Graph.pyAddOptStr_eq,
    Graph.addList_append, Graph.addList_cons, Graph.addList_nil]

/-- Counterexample to C4 as stated: the models.py `VLAN.to_rdf` emits a
VLAN with nominal id `MyVlan` and vlan_id 10 entirely under the subject
`EX[MyVlan]` — the nominal id — and no triple mentions the subject
`EX[VLAN10]` the claim prescribes. -/
theorem claim4_counterexample :
    ((VLAN.to_rdf ⟨⟨⟨"MyVlan", none⟩⟩, 10, none, []⟩ Graph.empty).all
      (fun t => t.subj == EX "MyVlan")) = true ∧
    (∀ t ∈ VLAN.to_rdf ⟨⟨⟨"MyVlan", none⟩⟩, 10, none, []⟩ Graph.empty,
      t.subj ≠ EX "VLAN10") ∧
    EX "MyVlan" ≠ EX "VLAN10" := by
  exact ⟨by decide, by decide, by decide⟩

/-- Every triple emitted by the CLI `VLAN.to_rdf` has the subject
`EX[VLAN{vlan_id}]`. -/
theorem cliVlan_triples_subj (v : CliVLAN) :
    (v.triples.all (fun t => t.subj == EX ("VLAN" ++ toString v.vlan_id))) = true := by
  rw [List.all_eq_true]
  intro t ht
  simp only [CliVLAN.triples, List.mem_append, List.mem_cons,
    List.not_mem_nil, or_false] at ht
  rcases ht with (rfl | rfl | rfl) | hopt
  · exact beq_self_eq_true _
  · exact beq_self_eq_true _
  · exact beq_self_eq_true _
  · obtain ⟨sv, rfl⟩ := mem_optStrTriples hopt
    exact beq_self_eq_true _

/-- Every triple emitted by the models.py `VLAN.to_rdf` has the subject
`EX[id]` — the nominal id. -/
theorem vlan_triples_subj (v : VLAN) :
    (v.triples.all (fun t => t.subj == EX v.id)) = true := by
  rw [List.all_eq_true]
  intro t ht
  simp only [VLAN.triples, List.mem_append, List.mem_cons,
    List.not_mem_nil, or_false, List.mem_map] at ht
  rcases ht with ((((rfl | rfl) | hopt) | rfl) | hopt) | hmap
  · exact beq_self_eq_true _
  · exact beq_self_eq_true _
  · obtain ⟨sv, rfl⟩ := mem_optStrTriples hopt
    exact beq_self_eq_true _
  · exact beq_self_eq_true _
  · obtain ⟨sv, rfl⟩ := mem_optStrTriples hopt
    exact beq_self_eq_true _
  · obtain ⟨sid, _, rfl⟩ := hmap
    exact beq_self_eq_true _

/-- Claim C4, amended: in the CLI modules (both main.py variants) a
VLAN's graph identity is `VLAN{vlan_id}` — every emitted triple uses
that subject and the result is independent of the nominal id — while
the models.py `VLAN` is emitted at its nominal id. -/
theorem claim4_amended (v : CliVLAN) (x : String) (g : Graph) (w : VLAN) :
    CliVLAN.to_rdf { v with id := x } g = CliVLAN.to_rdf v g ∧
    (CliVLAN.to_rdf v Graph.empty).all
      (fun t => t.subj == EX ("VLAN" ++ toString v.vlan_id)) = true ∧
    (VLAN.to_rdf w Graph.empty).all (fun t => t.subj == EX w.id) = true := by
  refine ⟨by cases v; rfl, ?_, ?_⟩
  · rw [cliVlan_to_rdf_eq, List.all_eq_true]
    intro t ht
    rcases Graph.mem_addList.mp ht with h | h
    · exact absurd h (List.not_mem_nil t)
    · exact List.all_eq_true.mp (cliVlan_triples_subj v) t h
  · rw [vlan_to_rdf_eq, List.all_eq_true]
    intro t ht
    rcases Graph.mem_addList.mp ht with h | h
    · exact absurd h (List.not_mem_nil t)
    · exact List.all_eq_true.mp (vlan_triples_subj w) t h

/-- No triple emitted by the *base* `Node.to_rdf` has the rdf:type
predicate — the generic type assertion is commented out in the source. -/
theorem Node.triples_pred_ne_type (n : Node) :
    ∀ t ∈ n.triples, t.pred ≠ rdfType := by
  intro t ht
  have h₁ : rdfsLabel ≠ rdfType := by decide
  have h₂ : rdfsComment ≠ rdfType := by decide
  have h₃ : NETWORK "HWStatus" ≠ rdfType := by decide
  have h₄ : NETWORK "HasIFace" ≠ rdfType := by decide
  have h₅ : NETWORK "BelongsToNode" ≠ rdfType := by decide
  have h₆ : NETWORK "HasNeighbor" ≠ rdfType := by decide
  simp only [Node.triples, List.mem_append, List.mem_cons, List.not_mem_nil,
    or_false, List.mem_flatMap] at ht
  rcases ht with (((rfl | hopt) | rfl) | hflat) | hflat
  · exact h₁
  · obtain ⟨sv, rfl⟩ := mem_optStrTriples hopt
    exact h₂
  · exact h₃
  · obtain ⟨x, _, hx⟩ := hflat
    rcases hx with rfl | rfl
    · exact h₄
    · exact h₅
  · obtain ⟨x, _, hx⟩ := hflat
    rcases hx with rfl | rfl
    · exact h₆
    · exact h₆

/-- The type triple the claim expects a plain Node to emit is absent. -/
theorem Node.type_triple_not_mem (n : Node) :
    (⟨EX n.id, rdfType, .res (NETWORK "Node")⟩ : Triple) ∉ n.triples := by
  intro h
  exact Node.triples_pred_ne_type n _ h rfl

/-- The entity's class name, used in the `NETWORK[...]` type triple. -/
def Entity.kindName : Entity → String
  | .base _ => "BaseEntity"
  | .hw _ => "HWNetEntity"
  | .vlan _ => "VLAN"
  | .subnet _ => "Subnet"
  | .addr _ => "AddressAssignment"
  | .iface _ => "Iface"
  | .link _ => "Link"
  | .node _ => "Node"
  | .host _ => "Host"
  | .router _ => "Router"
  | .switch _ => "Switch"

/-- The entity's graph node (its `to_uri`). -/
def Entity.subjUri : Entity → String
  | .subnet s => s.to_uri
  | .base e => EX e.id
  | .hw e => EX e.id
  | .vlan v => EX v.id
  | .addr a => EX a.id
  | .iface i => EX i.id
  | .link l => EX l.id
  | .node n => EX n.id
  | .host h => EX h.id
  | .router r => EX r.id
  | .switch s => EX s.id

/-- The is-a triple asserting the entity's own kind at its own node. -/
def Entity.typeTriple (e : Entity) : Triple :=
  ⟨e.subjUri, rdfType, .res (NETWORK e.kindName)⟩

/-- Counterexample to C7 as stated: a plain Node emitted into a fresh
graph produces *no* triple whose predicate is rdf:type at all, rather
than exactly one. -/
theorem claim7_counterexample :
    ((Entity.toRdf (.node ⟨⟨⟨"node-1", none⟩, .ON⟩, [], []⟩) Graph.empty).countP
      (fun t => t.pred == rdfType)) = 0 := by
  decide

/-- Claim C7, amended: every entity kind except a plain `Node` emits
exactly one is-a triple asserting its kind for its node; a plain `Node`
emits none (the subclasses `Host`, `Router` and `Switch` each supply
exactly one). -/
theorem claim7_amended_type_triples (e : Entity) :
    (Entity.toRdf e Graph.empty).count e.typeTriple
      = (match e with | .node _ => 0 | _ => 1) := by
  have hnodup : (Entity.toRdf e Graph.empty).Nodup := by
    rw [Entity.toRdf_eq]
    exact Graph.addList_nodup List.nodup_nil
  cases e with
  | node n =>
    refine List.count_eq_zero.mpr ?_
    rw [Entity.toRdf_eq]
    intro h
    rcases Graph.mem_addList.mp h with h' | h'
    · exact absurd h' (List.not_mem_nil _)
    · exact Node.type_triple_not_mem n h'
  | base b =>
    refine List.count_eq_one_of_mem hnodup ?_
    rw [Entity.toRdf_eq]
    exact Graph.mem_addList.mpr (Or.inr (by
      simp [Entity.triples, Entity.typeTriple, Entity.subjUri, Entity.kindName,
        BaseEntity.triples]))
  | hw b =>
    refine List.count_eq_one_of_mem hnodup ?_
    rw [Entity.toRdf_eq]
    exact Graph.mem_addList.mpr (Or.inr (by
      simp [Entity.triples, Entity.typeTriple, Entity.subjUri, Entity.kindName,
        HWNetEntity.triples]))
  | vlan v =>
    refine List.count_eq_one_of_mem hnodup ?_
    rw [Entity.toRdf_eq]
    exact Graph.mem_addList.mpr (Or.inr (by
      simp [Entity.triples, Entity.typeTriple, Entity.subjUri, Entity.kindName,
        VLAN.triples]))
  | subnet s =>
    refine List.count_eq_one_of_mem hnodup ?_
    rw [Entity.toRdf_eq]
    exact Graph.mem_addList.mpr (Or.inr (by
      simp [Entity.triples, Entity.typeTriple, Entity.subjUri, Entity.kindName,
        Subnet.triples]))
  | addr a =>
    refine List.count_eq_one_of_mem hnodup ?_
    rw [Entity.toRdf_eq]
    exact Graph.mem_addList.mpr (Or.inr (by
      simp [Entity.triples, Entity.typeTriple, Entity.subjUri, Entity.kindName,
        AddressAssignment.triples]))
  | iface i =>
    refine List.count_eq_one_of_mem hnodup ?_
    rw [Entity.toRdf_eq]
    exact Graph.mem_addList.mpr (Or.inr (by
      simp [Entity.triples, Entity.typeTriple, Entity.subjUri, Entity.kindName,
        Iface.triples]))
  | link l =>
    refine List.count_eq_one_of_mem hnodup ?_
    rw [Entity.toRdf_eq]
    exact Graph.mem_addList.mpr (Or.inr (by
      simp [Entity.triples, Entity.typeTriple, Entity.subjUri, Entity.kindName,
        Link.triples]))
  | host h =>
    refine List.count_eq_one_of_mem hnodup ?_
    rw [Entity.toRdf_eq]
    exact Graph.mem_addList.mpr (Or.inr (by
      simp [Entity.triples, Entity.typeTriple, Entity.subjUri, Entity.kindName,
        Host.triples]))
  | router r =>
    refine List.count_eq_one_of_mem hnodup ?_
    rw [Entity.toRdf_eq]
    exact Graph.mem_addList.mpr (Or.inr (by
      simp [Entity.triples, Entity.typeTriple, Entity.subjUri, Entity.kindName,
        Router.triples]))
  | switch s =>
    refine List.count_eq_one_of_mem hnodup ?_
    rw [Entity.toRdf_eq]
    exact Graph.mem_addList.mpr (Or.inr (by
      simp [Entity.triples, Entity.typeTriple, Entity.subjUri, Entity.kindName,
        Switch.triples]))

/-- The per-`ok`-step error contribution is empty. -/
theorem flatMap_stepErrs_map_ok (es : List Entity) :
    (es.map EmitStep.ok).flatMap EmitStep.stepErrs = [] := by
  induction es with
  | nil => rfl
  | cons e es ih => simp [List.flatMap_cons, EmitStep.stepErrs, ih]

/-- Claim C8: if exactly one step of the population batch raises during
its emission call (contributing whatever partial triples it managed plus
an exception message), the loop still emits the full triple set of every
other entity and reports exactly one per-entity failure — the exception
never escapes the loop. -/
theorem claim8_failure_isolation (pre post : List Entity) (bid : String)
    (ts : List Triple) (msg : String) (steps : List EmitStep)
    (hsteps : steps = pre.map EmitStep.ok ++ [EmitStep.fails bid ts msg]
      ++ post.map EmitStep.ok) :
    (populateGraph steps Graph.empty []).2.length = 1 ∧
    ∀ e ∈ pre ++ post, ∀ t ∈ Entity.triples e,
      t ∈ (populateGraph steps Graph.empty []).1 := by
  subst hsteps
  constructor
  · rw [populateGraph_snd]
    simp [List.flatMap_append, flatMap_stepErrs_map_ok, EmitStep.stepErrs]
  · intro e he t ht
    rw [populateGraph_fst]
    refine Graph.mem_addList.mpr (Or.inr ?_)
    rw [List.mem_flatMap]
    rcases List.mem_append.mp he with h | h
    · exact ⟨EmitStep.ok e, by
        simp only [List.mem_append, List.mem_map]
        exact Or.inl (Or.inl ⟨e, h, rfl⟩), ht⟩
    · exact ⟨EmitStep.ok e, by
        simp only [List.mem_append, List.mem_map]
        exact Or.inr ⟨e, h, rfl⟩, ht⟩

/-- Concrete batch for the C8 witness: the entities before the failing
step. -/
def wPre : List Entity := [.vlan wVlan, .node wNodeA]

/-- Concrete batch for the C8 witness: the entities after the failing
step. -/
def wPost : List Entity := [.node wNodeB, .link wLink, .iface wIface]

/-- The C8 witness batch: five valid entities with one forced failure in
the middle. -/
def wSteps : List EmitStep :=
  wPre.map EmitStep.ok ++ [EmitStep.fails "Bad_Entity" [] "boom"]
    ++ wPost.map EmitStep.ok

/-- Witness for C8: on the concrete batch, exactly one failure is
reported and a triple of an entity after the failure is still emitted. -/
theorem claim8_failure_isolation_witness :
    (populateGraph wSteps Graph.empty []).2.length = 1 ∧
    (⟨EX "Sw1", rdfsLabel, .lit (pyLit "Sw1")⟩ : Triple)
      ∈ (populateGraph wSteps Graph.empty []).1 :=
  ⟨(claim8_failure_isolation wPre wPost "Bad_Entity" [] "boom" wSteps rfl).1,
   (claim8_failure_isolation wPre wPost "Bad_Entity" [] "boom" wSteps rfl).2
     (.node wNodeB) (by decide) ⟨EX "Sw1", rdfsLabel, .lit (pyLit "Sw1")⟩
     (by decide)⟩

/-- Counterexample to C9 as stated: the `ipValue` triple of a concrete
AddressAssignment is emitted as a *plain* literal with no datatype; the
`xsd:string`-typed variant the claim prescribes is absent. -/
theorem claim9_counterexample :
    (⟨EX "A1", NETWORK "ipValue", .lit ⟨.s "10.0.0.1", none⟩⟩ : Triple)
      ∈ AddressAssignment.to_rdf ⟨⟨"A1", none⟩, "10.0.0.1", "S1"⟩ Graph.empty ∧
    (⟨EX "A1", NETWORK "ipValue", .lit ⟨.s "10.0.0.1", some xsdString⟩⟩ : Triple)
      ∉ AddressAssignment.to_rdf ⟨⟨"A1", none⟩, "10.0.0.1", "S1"⟩ Graph.empty := by
  exact ⟨by decide, by decide⟩

/-- Claim C9, amended: the numeric attributes (VLAN id, Link bandwidth,
Link cost) are emitted as `xsd:integer`-typed integer literals and the
CIDR as an `xsd:string`-typed string literal, but the IP value is
emitted as a plain untyped literal — and every `ipValue` triple an
AddressAssignment emits is that untyped literal. -/
theorem claim9_amended_literal_typing (v : VLAN) (l : Link) (s : Subnet)
    (a : AddressAssignment) :
    (⟨EX v.id, NETWORK "vlanId", .lit ⟨.i v.vlan_id, some xsdInteger⟩⟩ : Triple)
      ∈ VLAN.to_rdf v Graph.empty ∧
    (∀ b, l.bandwidth = some b →
      (⟨EX l.id, NETWORK "Bandwidth", .lit ⟨.i b, some xsdInteger⟩⟩ : Triple)
        ∈ Link.to_rdf l Graph.empty) ∧
    (∀ c, l.cost = some c →
      (⟨EX l.id, NETWORK "Cost", .lit ⟨.i c, some xsdInteger⟩⟩ : Triple)
        ∈ Link.to_rdf l Graph.empty) ∧
    (⟨s.to_uri, NETWORK "subnetCidr", .lit ⟨.s s.cidr, some xsdString⟩⟩ : Triple)
      ∈ Subnet.to_rdf s Graph.empty ∧
    (⟨EX a.id, NETWORK "ipValue", .lit ⟨.s a.ip_value, none⟩⟩ : Triple)
      ∈ AddressAssignment.to_rdf a Graph.empty ∧
    (∀ t ∈ AddressAssignment.to_rdf a Graph.empty,
      t.pred = NETWORK "ipValue" → t.obj = .lit ⟨.s a.ip_value, none⟩) := by
  have hne₁ : rdfType ≠ NETWORK "ipValue" := by decide
  have hne₂ : rdfsLabel ≠ NETWORK "ipValue" := by decide
  have hne₃ : rdfsComment ≠ NETWORK "ipValue" := by decide
  have hne₄ : NETWORK "onSubnet" ≠ NETWORK "ipValue" := by decide
  refine ⟨?_, ?_, ?_, ?_, ?_, ?_⟩
  · rw [vlan_to_rdf_eq]
    exact Graph.mem_addList.mpr (Or.inr (by
      simp [VLAN.triples, pyLitIntTyped]))
  · intro b hb
    rw [link_to_rdf_eq]
    exact Graph.mem_addList.mpr (Or.inr (by
      simp [Link.triples, optTriples, hb, pyLitInt]))
  · intro c hc
    rw [link_to_rdf_eq]
    exact Graph.mem_addList.mpr (Or.inr (by
      simp [Link.triples, optTriples, hc, pyLitInt]))
  · rw [subnet_to_rdf_eq]
    exact Graph.mem_addList.mpr (Or.inr (by
      simp [Subnet.triples, pyLitTyped]))
  · rw [addressAssignment_to_rdf_eq]
    exact Graph.mem_addList.mpr (Or.inr (by
      simp [AddressAssignment.triples, pyLit]))
  · intro t ht hp
    rw [addressAssignment_to_rdf_eq] at ht
    rcases Graph.mem_addList.mp ht with h | h
    · exact absurd h (List.not_mem_nil t)
    · simp only [AddressAssignment.triples, List.mem_append, List.mem_cons,
        List.not_mem_nil, or_false] at h
      rcases h with ((rfl | rfl) | hopt) | rfl | rfl
      · exact absurd hp hne₁
      · exact absurd hp hne₂
      · obtain ⟨sv, rfl⟩ := mem_optStrTriples hopt
        exact absurd hp hne₃
      · simp [pyLit]
      · exact absurd hp hne₄

/-- Concrete link for the C9 witness. -/
def wLink2 : Link :=
  ⟨⟨⟨"L2", none⟩, .ON⟩, some 1000, some "Ethernet", some 5, []⟩

/-- Concrete address assignment for the C9 witness. -/
def wAssign : AddressAssignment := ⟨⟨"A1", none⟩, "10.0.0.1", "S1"⟩

/-- Witness for C9's amended claim at concrete entities: a typed
bandwidth literal, a typed cost literal, and the untyped IP literal. -/
theorem claim9_amended_literal_typing_witness :
    (⟨EX "L2", NETWORK "Bandwidth", .lit ⟨.i 1000, some xsdInteger⟩⟩ : Triple)
      ∈ Link.to_rdf wLink2 Graph.empty ∧
    (⟨EX "L2", NETWORK "Cost", .lit ⟨.i 5, some xsdInteger⟩⟩ : Triple)
      ∈ Link.to_rdf wLink2 Graph.empty ∧
    (⟨EX "A1", NETWORK "ipValue", .lit ⟨.s "10.0.0.1", none⟩⟩ : Triple)
      ∈ AddressAssignment.to_rdf wAssign Graph.empty :=
  ⟨(claim9_amended_literal_typing wVlan wLink2
      ⟨⟨⟨"S1", none⟩⟩, "10.0.0.0/24"⟩ wAssign).2.1 1000 rfl,
   (claim9_amended_literal_typing wVlan wLink2
      ⟨⟨⟨"S1", none⟩⟩, "10.0.0.0/24"⟩ wAssign).2.2.1 5 rfl,
   (claim9_amended_literal_typing wVlan wLink2
      ⟨⟨⟨"S1", none⟩⟩, "10.0.0.0/24"⟩ wAssign).2.2.2.2.1⟩

/-- `EX` is injective: equal instance URIs come from equal local names. -/
theorem EX_inj {a b : String} (h : EX a = EX b) : a = b := by
  unfold EX at h
  have hd := congrArg String.data h
  simp only [String.data_append] at hd
  exact String.ext (List.append_cancel_left hd)

/-- Claim C10: an ACCESS interface with `access_vlan_id = n` emits its
`accessVlan` reference to the node named `VLAN{n}_obj` (likewise each
TRUNK `allowedVlan` reference), and that reference equals a VLAN's
emitted node exactly when the VLAN's *nominal* id is the string
`VLAN{n}_obj`. -/
theorem claim10_vlan_obj_naming (i : Iface) (n : Int) (v : VLAN) :
    (i.port_mode = .ACCESS → i.access_vlan_id = some n →
      (⟨EX i.id, NETWORK "accessVlan",
        .res (EX ("VLAN" ++ toString n ++ "_obj"))⟩ : Triple)
        ∈ Iface.to_rdf i Graph.empty) ∧
    (i.port_mode = .TRUNK → n ∈ i.allowed_vlan_ids →
      (⟨EX i.id, NETWORK "allowedVlan",
        .res (EX ("VLAN" ++ toString n ++ "_obj"))⟩ : Triple)
        ∈ Iface.to_rdf i Graph.empty) ∧
    (EX v.id = EX ("VLAN" ++ toString n ++ "_obj") ↔
      v.id = "VLAN" ++ toString n ++ "_obj") := by
  refine ⟨?_, ?_, ⟨EX_inj, fun h => congrArg EX h⟩⟩
  · intro hm ha
    rw [iface_to_rdf_eq]
    refine Graph.mem_addList.mpr (Or.inr ?_)
    simp [Iface.triples, Iface.vlanTriples, hm, ha, optTriples]
  · intro hm hn
    rw [iface_to_rdf_eq]
    refine Graph.mem_addList.mpr (Or.inr ?_)
    simp only [Iface.triples, Iface.vlanTriples, hm, List.mem_append,
      List.mem_map]
    exact Or.inr ⟨n, hn, rfl⟩

/-- Concrete ACCESS interface for the C10 witness. -/
def wIfaceAcc : Iface :=
  ⟨⟨⟨"Sw1_Fa0-1", none⟩, .ON⟩, [], none, none, .ACCESS, some 10, []⟩

/-- Witness for C10 at a concrete ACCESS interface and a VLAN whose
nominal id follows the `VLAN{n}_obj` pattern. -/
theorem claim10_vlan_obj_naming_witness :
    (⟨EX "Sw1_Fa0-1", NETWORK "accessVlan", .res (EX "VLAN10_obj")⟩ : Triple)
      ∈ Iface.to_rdf wIfaceAcc Graph.empty ∧
    (EX "VLAN10_obj" = EX ("VLAN" ++ toString (10 : Int) ++ "_obj") ↔
      ("VLAN10_obj" : String) = "VLAN" ++ toString (10 : Int) ++ "_obj") :=
  ⟨(claim10_vlan_obj_naming wIfaceAcc 10 wVlan).1 rfl rfl,
   (claim10_vlan_obj_naming wIfaceAcc 10 wVlan).2.2⟩
